import Mathlib

/-!
Verification of the Logi Circle camera client (`custom_components/camera/logicircle.py`).

The Python module is embedded shallowly:

* JSON values become the inductive `Json`; the transport's cookie jar becomes
  `CookieJar` (the code only ever observes which cookies exist for a domain);
* the mutable objects `LogiPlatform`, `LogiCam` and `LogiCircleCamera` become
  structures, and each `async` method becomes a pure function from the old
  state (plus the HTTP responses the network would deliver) to the new state
  and result, with `Except FetchError` standing for raised exceptions;
* the Python object `LogiCam` reaches its platform through a `weakref`; here
  the shared platform state is threaded explicitly through each operation;
* wall-clock time is passed in as a parameter (`t_us`, microseconds since the
  epoch), so `time.time()` is `t_us / 1000000` seconds and
  `int(time.time() * 1000)` is `t_us / 1000` (truncating division).
-/

namespace LogiCircle

/-- JSON values as the Python code manipulates them (decoded response bodies,
accessory specs, request payloads).  Objects keep their fields in order, as a
list of key-value pairs. -/
inductive Json where
  | null : Json
  | bool : Bool → Json
  | num : Int → Json
  | str : String → Json
  | arr : List Json → Json
  | obj : List (String × Json) → Json

/-- Python subscript `j[key]` on a decoded JSON value: `some` the field of an
object, `none` when the key is absent or the value is not an object (where
Python raises `KeyError`/`TypeError`). -/
def Json.lookup : Json → String → Option Json
  | .obj fields, key => fields.lookup key
  | _, _ => none

/-- Python truthiness of a decoded JSON value (`if accessories_json:`). -/
def Json.truthy : Json → Bool
  | .null => false
  | .bool b => b
  | .num n => n != 0
  | .str s => s != ""
  | .arr xs => !xs.isEmpty
  | .obj fields => !fields.isEmpty

/-- Python iteration (`for spec in accessories_json:`) over a decoded JSON
value: the elements of an array, the keys of an object, the one-character
strings of a string; `none` for the non-iterable values, where Python raises
`TypeError`. -/
def Json.pyIter : Json → Option (List Json)
  | .arr xs => some xs
  | .obj fields => some (fields.map fun f => Json.str f.1)
  | .str s => some (s.toList.map fun c => Json.str (String.mk [c]))
  | _ => none

/-- How `str.format` renders a JSON value interpolated into a URL.  Scalars
are rendered by their Python textual form; the service represents the ids the
code interpolates (`nodeId`, `accessoryId`) as JSON strings, so the container
cases, which Python would render by their `repr`, are summarised by a tag. -/
def Json.pyStr : Json → String
  | .null => "None"
  | .bool true => "True"
  | .bool false => "False"
  | .num n => toString n
  | .str s => s
  | .arr _ => "<list>"
  | .obj _ => "<dict>"

/-- The transport's cookie store (`websession.cookie_jar`), reduced to what the
code observes of it: which cookies (domain, name) it currently holds. -/
structure CookieJar where
  cookies : List (String × String)

/-- `cookie_jar.filter_cookies(url)`: the cookies scoped to the given URL. -/
def CookieJar.filter_cookies (jar : CookieJar) (url : String) :
    List (String × String) :=
  jar.cookies.filter fun c => c.1 == url

/-- An HTTP response as the code observes it on the JSON endpoints: a status
code and a decoded body (`none` when the body is not decodable JSON, where
`response.json()` raises). -/
structure HttpResponse where
  status : Nat
  body : Option Json

/-- The response of the authorization endpoint: a status code and the cookies
it sets, as (name, value) pairs (`response.cookies`). -/
structure LoginResponse where
  status : Nat
  cookies : List (String × String)

/-- The exceptions the embedded operations raise: `authError` for
`response.raise_for_status()` on the login request, `httpError` for other
transport-level failures, `decodeError` for a non-decodable body or a missing
key (`response.json()` failure / `KeyError`). -/
inductive FetchError where
  | authError (status : Nat)
  | httpError
  | decodeError

/-- The cookie domain the code filters on (line 54 of the source). -/
def serviceUrl : String := "https://video.logi.com"

/-- The authorization endpoint (line 46 of the source). -/
def authorization_url : String := "https://video.logi.com/api/accounts/authorization"

/-- The accessory-listing endpoint (line 62 of the source). -/
def accessories_url : String := "https://video.logi.com/api/accessories"

/-- `LogiPlatform`: credentials, the shared transport session (reduced to its
cookie jar) and the `_last_status` field. -/
structure LogiPlatform where
  email : String
  password : String
  session : CookieJar
  last_status : Nat

/-- `LogiPlatform.__init__`: stores the credentials and the session and sets
`_last_status = 401`. -/
def LogiPlatform.init (email password : String) (websession : CookieJar) :
    LogiPlatform :=
  { email := email, password := password, session := websession,
    last_status := 401 }

/-- `LogiPlatform.needs_login`: no cookie for the service domain in the jar,
or the last recorded status is 401. -/
def LogiPlatform.needs_login (p : LogiPlatform) : Bool :=
  (p.session.filter_cookies serviceUrl).length == 0 || p.last_status == 401

/-- `LogiPlatform.async_login`: POSTs the credentials to the authorization
endpoint.  Receiving the response stores its cookies in the session's jar
(scoped to the service domain); `raise_for_status()` raises for status ≥ 400;
`response.cookies['prod_session']` raises when that cookie is absent, and is
returned otherwise.  `_last_status` is not touched. -/
def LogiPlatform.async_login (p : LogiPlatform) (resp : LoginResponse) :
    Except FetchError (LogiPlatform × String) :=
  let jar := CookieJar.mk ((resp.cookies.map fun c => (serviceUrl, c.1)) ++ p.session.cookies)
  let p := { p with session := jar }
  if 400 ≤ resp.status then .error (.authError resp.status)
  else
    match resp.cookies.lookup "prod_session" with
    | some v => .ok (p, v)
    | none => .error .decodeError

/-- The two-line prelude `if self.needs_login: await self.async_login()` that
every fetch method of the source repeats (the returned cookie is discarded). -/
def LogiPlatform.ensure_login (p : LogiPlatform) (resp : LoginResponse) :
    Except FetchError LogiPlatform :=
  if p.needs_login then (p.async_login resp).map Prod.fst else .ok p

/-- `LogiPlatform._fetch_json`: records the response status in the platform's
`_last_status`, then decodes the body (`response.json()` raises on a
non-decodable body, after the status write). -/
def LogiPlatform.fetch_json (p : LogiPlatform) (resp : HttpResponse) :
    LogiPlatform × Except FetchError Json :=
  let p := { p with last_status := resp.status }
  (p, match resp.body with
      | some j => .ok j
      | none => .error .decodeError)

/-- `LogiCam`: an accessory adapter holding the accessory's spec.  Its
`last_status` models the `_last_status` attribute that the fetch methods
create on the `LogiCam` instance (`self._last_status = response.status`):
`none` until the first such write, since `LogiCam.__init__` does not set it.
The weak platform reference is modelled by threading the platform state
through each operation. -/
structure LogiCam where
  spec : Json
  last_status : Option Nat

/-- `LogiCam.__init__`: stores the spec; no `_last_status` attribute yet. -/
def LogiCam.init (spec : Json) : LogiCam :=
  { spec := spec, last_status := none }

/-- `LogiCam.name`: `self._spec['name']`. -/
def LogiCam.name (cam : LogiCam) : Option Json := cam.spec.lookup "name"

/-- `LogiCam.accessory_id`: `self._spec['accessoryId']`. -/
def LogiCam.accessory_id (cam : LogiCam) : Option Json :=
  cam.spec.lookup "accessoryId"

/-- `LogiCam.node_id`: `self._spec['nodeId']`. -/
def LogiCam.node_id (cam : LogiCam) : Option Json := cam.spec.lookup "nodeId"

/-- `js_timestamp = int(time.time() * 1000)` with the clock given in
microseconds since the epoch: the current time truncated to whole
milliseconds. -/
def js_timestamp (t_us : Nat) : Nat := t_us / 1000

/-- `LogiCam.still_image_url` at clock time `t_us` (microseconds): the
per-node image endpoint with the `anticache` query parameter.  `none` when a
needed spec key is absent (Python raises `KeyError`). -/
def LogiCam.still_image_url (cam : LogiCam) (t_us : Nat) : Option String := do
  let nid ← cam.node_id
  let aid ← cam.accessory_id
  pure ("https://" ++ nid.pyStr ++ "/api/accessories/" ++ aid.pyStr ++
        "/image?anticache=" ++ toString (js_timestamp t_us))

/-- `LogiCam.activities_url`. -/
def LogiCam.activities_url (cam : LogiCam) : Option String :=
  cam.accessory_id.map fun aid =>
    "https://video.logi.com/api/accessories/" ++ aid.pyStr ++ "/activities"

/-- `LogiCam.accessory_info_url`. -/
def LogiCam.accessory_info_url (cam : LogiCam) : Option String :=
  cam.accessory_id.map fun aid =>
    "https://video.logi.com/api/accessories/" ++ aid.pyStr

/-- `LogiPlatform.async_fetch_cameras`: log in if needed, fetch the accessory
list through `_fetch_json`, and build one fresh `LogiCam` per spec, in order.
`loginResp` and `accResp` are the responses the network would deliver to the
login request (when made) and to the listing request. -/
def LogiPlatform.async_fetch_cameras (p : LogiPlatform) (loginResp : LoginResponse)
    (accResp : HttpResponse) : Except FetchError (LogiPlatform × List LogiCam) := do
  let p ← p.ensure_login loginResp
  let fetched := p.fetch_json accResp
  let p := fetched.1
  let accessories_json ← fetched.2
  if accessories_json.truthy then
    match accessories_json.pyIter with
    | some specs => pure (p, specs.map LogiCam.init)
    | none => throw .httpError
  else
    pure (p, [])

/-- `LogiCam.async_fetch_accessory_info`: log in if needed, GET the info
endpoint; the status is written to `self._last_status` — an attribute of the
`LogiCam` instance, not of the platform, exactly as the source does; on
status < 400 the spec is replaced by the decoded body. -/
def LogiCam.async_fetch_accessory_info (p : LogiPlatform) (cam : LogiCam)
    (loginResp : LoginResponse) (infoResp : HttpResponse) :
    Except FetchError (LogiPlatform × LogiCam) := do
  let p ← p.ensure_login loginResp
  let cam := { cam with last_status := some infoResp.status }
  if infoResp.status < 400 then
    match infoResp.body with
    | some j => pure (p, { cam with spec := j })
    | none => throw .decodeError
  else
    pure (p, cam)

/-- The fixed filter payload `async_fetch_activities` POSTs (lines 152-154 of
the source). -/
def activities_payload : Json :=
  .obj [("extraFields", .arr [.str "activitySet"]),
        ("operator", .str "<="),
        ("limit", .num 80),
        ("scanDirectionNewer", .bool true),
        ("filter", .str "relevanceLevel = 0 OR relevanceLevel >= 1")]

/-- `LogiCam.async_fetch_activities`: log in if needed, POST the fixed
payload to the activities endpoint (`post` maps the posted payload to the
network's response), decode the body (raising on failure), record the status
on the `LogiCam` instance, and return the `activities` field (raising
`KeyError` when absent). -/
def LogiCam.async_fetch_activities (p : LogiPlatform) (cam : LogiCam)
    (loginResp : LoginResponse) (post : Json → HttpResponse) :
    Except FetchError (LogiPlatform × LogiCam × Json) := do
  let p ← p.ensure_login loginResp
  let response := post activities_payload
  match response.body with
  | none => throw .decodeError
  | some activities_response =>
    let cam := { cam with last_status := some response.status }
    match activities_response.lookup "activities" with
    | some acts => pure (p, cam, acts)
    | none => throw .decodeError

/-- An image response: status and raw body bytes (`response.read()`). -/
structure ImageResponse where
  status : Nat
  body : List Nat

/-- `LogiCam.async_fetch_image`: log in if needed, refresh the accessory
info, log in again if needed, then GET the still-image URL and return the raw
bytes (`lr1`, `lr2`, `lr3` are the responses the network would deliver to the
up-to-three login attempts). -/
def LogiCam.async_fetch_image (p : LogiPlatform) (cam : LogiCam)
    (lr1 lr2 lr3 : LoginResponse) (infoResp : HttpResponse)
    (imgResp : ImageResponse) :
    Except FetchError (LogiPlatform × LogiCam × List Nat) := do
  let p ← p.ensure_login lr1
  let fetched ← LogiCam.async_fetch_accessory_info p cam lr2 infoResp
  let p := fetched.1
  let cam := fetched.2
  let p ← p.ensure_login lr3
  let cam := { cam with last_status := some imgResp.status }
  pure (p, cam, imgResp.body)

/-- How one `async_fetch_image` call, bounded by the host entity's
`async_timeout.timeout(10, ...)` block, resolves as `async_camera_image`
observes it: with the fetched bytes, with `asyncio.TimeoutError`, or with an
`aiohttp.ClientError`. -/
inductive FetchOutcome where
  | success (image : List Nat)
  | timeoutError
  | clientError

/-- `LogiCircleCamera`: the host-facing camera entity.  Only the state the
verified behaviour depends on is modelled (`_last_image`; the wrapped device);
the host handle and the fixed `_frame_interval = 0.2` are plumbing no claim
concerns. -/
structure LogiCircleCamera where
  logi_cam_device : LogiCam
  last_image : Option (List Nat)

/-- `LogiCircleCamera.__init__`: `_last_image = None`. -/
def LogiCircleCamera.init (dev : LogiCam) : LogiCircleCamera :=
  { logi_cam_device := dev, last_image := none }

/-- `LogiCircleCamera.async_camera_image`: on a completed fetch, store the
bytes in `_last_image` and return it; on `TimeoutError` or `ClientError` the
assignment never ran, and the previous `_last_image` is returned. -/
def LogiCircleCamera.async_camera_image (c : LogiCircleCamera)
    (outcome : FetchOutcome) : LogiCircleCamera × Option (List Nat) :=
  match outcome with
  | .success img =>
    let c := { c with last_image := some img }
    (c, c.last_image)
  | .timeoutError => (c, c.last_image)
  | .clientError => (c, c.last_image)

/-! Theorems. -/

/-- Claim C1: for every `LogiPlatform` state, `needs_login` is true if and
only if the transport's cookie store holds no cookie scoped to the service's
domain or the last observed status is 401; in particular, with no cookie
present and no prior response recorded (a fresh instance), `needs_login` is
true. -/
theorem C1_needs_login_characterization :
    (∀ p : LogiPlatform,
        p.needs_login = true ↔
          (p.session.filter_cookies serviceUrl = [] ∨ p.last_status = 401)) ∧
    (∀ e pw, (LogiPlatform.init e pw (CookieJar.mk [])).needs_login = true) := by
  constructor
  · intro p
    simp [LogiPlatform.needs_login, List.length_eq_zero]
  · intro e pw
    simp [LogiPlatform.needs_login, LogiPlatform.init]

/-- Characterization of `needs_login = false`: a cookie for the service
domain is present and the last recorded status is not 401. -/
theorem needs_login_false_iff (p : LogiPlatform) :
    p.needs_login = false ↔
      (p.session.filter_cookies serviceUrl ≠ [] ∧ p.last_status ≠ 401) := by
  simp [LogiPlatform.needs_login, List.length_eq_zero]

/-- The platform state reached by a successful login on a fresh instance:
the session cookie is in the jar, `_last_status` still 401. -/
def postLoginPlatform : LogiPlatform :=
  ⟨"e", "pw", CookieJar.mk [(serviceUrl, "prod_session")], 401⟩

/-- Claim C2, counterexample: on a fresh platform (no cookie, `_last_status`
initialized to 401), `async_login` succeeds — the session cookie is now in the
jar — yet `needs_login` is still true, because login does not update
`_last_status`.  The claim says `needs_login` is false after a successful
login. -/
theorem C2_counterexample_login_leaves_needs_login :
    (LogiPlatform.init "e" "pw" (CookieJar.mk [])).async_login
        (LoginResponse.mk 200 [("prod_session", "tok")]) =
      .ok (postLoginPlatform, "tok") ∧
    postLoginPlatform.last_status = 401 ∧
    postLoginPlatform.needs_login = true :=
  ⟨rfl, rfl, rfl⟩

/-- Claim C2 as amended: a successful `async_login` puts the session cookie
in the transport's jar but leaves `_last_status` unchanged, so `needs_login`
is false after login exactly when the last observed status was not 401; and
after a platform-level fetch records a status, `needs_login` is false exactly
when that status is not 401 (so it stays false until a 401 is recorded). -/
theorem C2_amended_needs_login_after_login (p p' : LogiPlatform) (v : String)
    (lr : LoginResponse) (hok : p.async_login lr = .ok (p', v)) :
    p'.last_status = p.last_status ∧
    p'.session.filter_cookies serviceUrl ≠ [] ∧
    (p'.needs_login = false ↔ p.last_status ≠ 401) ∧
    ∀ r : HttpResponse,
      ((p'.fetch_json r).1.needs_login = false ↔ r.status ≠ 401) := by
  simp only [LogiPlatform.async_login] at hok
  split at hok
  · exact absurd hok (by simp)
  · rcases hl : lr.cookies.lookup "prod_session" with _ | v'
    · rw [hl] at hok
      exact absurd hok (by simp)
    · rw [hl] at hok
      simp only [Except.ok.injEq, Prod.mk.injEq] at hok
      obtain ⟨hp, -⟩ := hok
      subst hp
      have hcne : lr.cookies ≠ [] := by
        intro h
        rw [h] at hl
        simp [List.lookup] at hl
      obtain ⟨c, rest, hcl⟩ : ∃ c rest, lr.cookies = c :: rest := by
        rcases hx : lr.cookies with _ | ⟨c, rest⟩
        · exact absurd hx hcne
        · exact ⟨_, _, rfl⟩
      have hmem : (serviceUrl, c.1) ∈
          ((lr.cookies.map fun x => (serviceUrl, x.1)) ++ p.session.cookies) := by
        rw [hcl, List.map_cons]
        exact List.mem_append_left _ (List.mem_cons_self _ _)
      have hfilter : (CookieJar.mk ((lr.cookies.map fun x => (serviceUrl, x.1)) ++
          p.session.cookies)).filter_cookies serviceUrl ≠ [] := by
        simp only [CookieJar.filter_cookies]
        exact List.ne_nil_of_mem (List.mem_filter.mpr ⟨hmem, by simp⟩)
      refine ⟨rfl, hfilter, ?_, ?_⟩
      · rw [needs_login_false_iff]
        simp [hfilter]
      · intro r
        rw [needs_login_false_iff]
        simp [LogiPlatform.fetch_json, hfilter]

/-- Computation rule for the embedded error monad: binding a success. -/
theorem except_bind_ok {α β : Type} (a : α) (f : α → Except FetchError β) :
    (do let x ← Except.ok a; f x) = f a := rfl

/-- Computation rule for the embedded error monad: binding a failure. -/
theorem except_bind_error {α β : Type} (e : FetchError)
    (f : α → Except FetchError β) :
    (do let x ← Except.error e; f x) = Except.error e := rfl

theorem C2_amended_witness :
    (LogiPlatform.init "e" "pw" (CookieJar.mk [])).async_login
        (LoginResponse.mk 200 [("prod_session", "tok")]) =
      .ok (postLoginPlatform, "tok") ∧
    (postLoginPlatform.last_status =
        (LogiPlatform.init "e" "pw" (CookieJar.mk [])).last_status ∧
      postLoginPlatform.session.filter_cookies serviceUrl ≠ [] ∧
      (postLoginPlatform.needs_login = false ↔
        (LogiPlatform.init "e" "pw" (CookieJar.mk [])).last_status ≠ 401) ∧
      ∀ r : HttpResponse,
        ((postLoginPlatform.fetch_json r).1.needs_login = false ↔
          r.status ≠ 401)) :=
  ⟨rfl, C2_amended_needs_login_after_login
    (LogiPlatform.init "e" "pw" (CookieJar.mk [])) postLoginPlatform "tok"
    (LoginResponse.mk 200 [("prod_session", "tok")]) rfl⟩

/-- The platform state after a platform-level fetch recorded status 200:
cookie present, `needs_login` false. -/
def platformAfter200 : LogiPlatform :=
  ⟨"e", "pw", CookieJar.mk [(serviceUrl, "prod_session")], 200⟩

/-- Claim C3, evaluated at the failing input: with the shared platform at
recorded status 200 (so `needs_login` is false), an accessory-level metadata
fetch that observes a 401 writes the status onto the `LogiCam` instance's own
`_last_status` attribute and leaves the platform — hence its shared
last-observed-status field and `needs_login` — completely unchanged.  The
claim (and the spec) say the write goes to the SessionManager's shared field,
making `needs_login` true. -/
theorem C3_accessory_fetch_skips_platform_status :
    platformAfter200.needs_login = false ∧
    LogiCam.async_fetch_accessory_info platformAfter200
        (LogiCam.init (Json.obj [("accessoryId", Json.str "A")]))
        (LoginResponse.mk 200 []) (HttpResponse.mk 401 none) =
      .ok (platformAfter200,
           LogiCam.mk (Json.obj [("accessoryId", Json.str "A")]) (some 401)) ∧
    platformAfter200.needs_login = false :=
  ⟨rfl, rfl, rfl⟩

/-- Claim C6: `async_camera_image` returns the previously cached image bytes
unchanged, without failing, when the bounded fetch ends in a timeout or a
transport (client) error; on a successful fetch it caches and returns the
newly fetched bytes. -/
theorem C6_camera_image_degrades_to_cache (c : LogiCircleCamera) (img : List Nat) :
    c.async_camera_image .timeoutError = (c, c.last_image) ∧
    c.async_camera_image .clientError = (c, c.last_image) ∧
    c.async_camera_image (.success img) =
      ({ c with last_image := some img }, some img) :=
  ⟨rfl, rfl, rfl⟩

/-- Claim C9: a freshly constructed `LogiPlatform` has `_last_status = 401`,
so `needs_login` is true whatever the cookie jar holds; consequently the first
operation on a new platform performs a login (here: `async_fetch_cameras`
propagates a failing login response as an `authError`, for every jar). -/
theorem C9_fresh_platform_always_logs_in :
    (∀ e pw jar, (LogiPlatform.init e pw jar).last_status = 401 ∧
        (LogiPlatform.init e pw jar).needs_login = true) ∧
    (∀ e pw jar accResp, (LogiPlatform.init e pw jar).async_fetch_cameras
        (LoginResponse.mk 401 []) accResp = .error (.authError 401)) := by
  constructor
  · intro e pw jar
    exact ⟨rfl, by simp [LogiPlatform.needs_login, LogiPlatform.init]⟩
  · intro e pw jar accResp
    have h : (LogiPlatform.init e pw jar).needs_login = true := by
      simp [LogiPlatform.needs_login, LogiPlatform.init]
    simp [LogiPlatform.async_fetch_cameras, LogiPlatform.ensure_login, h,
      LogiPlatform.async_login]
    rfl

/-- Claim C10: a freshly constructed `LogiCircleCamera` has no cached image,
and `async_camera_image` on a timeout or client error before any successful
fetch returns `none` (Python `None`) rather than bytes or an exception. -/
theorem C10_fresh_camera_returns_none (dev : LogiCam) :
    (LogiCircleCamera.init dev).last_image = none ∧
    (LogiCircleCamera.init dev).async_camera_image .timeoutError =
      (LogiCircleCamera.init dev, none) ∧
    (LogiCircleCamera.init dev).async_camera_image .clientError =
      (LogiCircleCamera.init dev, none) :=
  ⟨rfl, rfl, rfl⟩

/-- Claim C4: when the (possible) login succeeds and the server returns a
JSON array of N accessory specs, `async_fetch_cameras` returns exactly the N
freshly constructed adapters `specs.map LogiCam.init`, in server order, the
i-th adapter's identity being the i-th spec's `accessoryId`; an empty array
yields the empty list (the statement covers `specs = []`). -/
theorem C4_fetch_cameras_order (p p' : LogiPlatform) (lr : LoginResponse)
    (ar : HttpResponse) (specs : List Json)
    (hlogin : p.ensure_login lr = .ok p')
    (hbody : ar.body = some (Json.arr specs)) :
    p.async_fetch_cameras lr ar =
      .ok ({ p' with last_status := ar.status }, specs.map LogiCam.init) ∧
    (specs.map LogiCam.init).length = specs.length ∧
    ∀ i : Nat, ((specs.map LogiCam.init).get? i).map LogiCam.accessory_id =
      (specs.get? i).map fun s => s.lookup "accessoryId" := by
  refine ⟨?_, List.length_map _ _, ?_⟩
  · simp only [LogiPlatform.async_fetch_cameras]
    rw [hlogin, except_bind_ok]
    simp only [LogiPlatform.fetch_json, hbody]
    rw [except_bind_ok]
    cases specs with
    | nil => rfl
    | cons s ss => rfl
  · intro i
    rw [List.get?_map]
    cases specs.get? i with
    | none => rfl
    | some s => rfl

theorem C4_witness :
    (LogiPlatform.mk "e" "pw" (CookieJar.mk [(serviceUrl, "prod_session")])
        200).ensure_login (LoginResponse.mk 200 []) =
      .ok (LogiPlatform.mk "e" "pw"
        (CookieJar.mk [(serviceUrl, "prod_session")]) 200) ∧
    (HttpResponse.mk 200 (some (Json.arr [Json.obj [("accessoryId", Json.str "A")],
        Json.obj [("accessoryId", Json.str "B")]]))).body =
      some (Json.arr [Json.obj [("accessoryId", Json.str "A")],
        Json.obj [("accessoryId", Json.str "B")]]) ∧
    ((LogiPlatform.mk "e" "pw" (CookieJar.mk [(serviceUrl, "prod_session")])
        200).async_fetch_cameras (LoginResponse.mk 200 [])
        (HttpResponse.mk 200 (some (Json.arr [Json.obj [("accessoryId", Json.str "A")],
          Json.obj [("accessoryId", Json.str "B")]]))) =
      .ok (LogiPlatform.mk "e" "pw"
          (CookieJar.mk [(serviceUrl, "prod_session")]) 200,
        [Json.obj [("accessoryId", Json.str "A")],
          Json.obj [("accessoryId", Json.str "B")]].map LogiCam.init) ∧
      ([Json.obj [("accessoryId", Json.str "A")],
          Json.obj [("accessoryId", Json.str "B")]].map LogiCam.init).length =
        [Json.obj [("accessoryId", Json.str "A")],
          Json.obj [("accessoryId", Json.str "B")]].length ∧
      ∀ i : Nat, (([Json.obj [("accessoryId", Json.str "A")],
          Json.obj [("accessoryId", Json.str "B")]].map LogiCam.init).get? i).map
            LogiCam.accessory_id =
        ([Json.obj [("accessoryId", Json.str "A")],
          Json.obj [("accessoryId", Json.str "B")]].get? i).map
          fun s => s.lookup "accessoryId") :=
  ⟨rfl, rfl, C4_fetch_cameras_order
    (LogiPlatform.mk "e" "pw" (CookieJar.mk [(serviceUrl, "prod_session")]) 200)
    (LogiPlatform.mk "e" "pw" (CookieJar.mk [(serviceUrl, "prod_session")]) 200)
    (LoginResponse.mk 200 [])
    (HttpResponse.mk 200 (some (Json.arr [Json.obj [("accessoryId", Json.str "A")],
      Json.obj [("accessoryId", Json.str "B")]])))
    [Json.obj [("accessoryId", Json.str "A")],
      Json.obj [("accessoryId", Json.str "B")]] rfl rfl⟩

/-- Claim C5: when the (possible) login succeeds, `async_fetch_accessory_info`
on a response with status ≥ 400 returns successfully with the accessory's
stored spec — hence its name — unchanged (only the instance-level status
attribute is written), and on status < 400 with decodable body it replaces
the spec in place with the decoded response. -/
theorem C5_fetch_metadata_soft_fail (p p' : LogiPlatform) (cam : LogiCam)
    (lr : LoginResponse) (ir : HttpResponse)
    (hlogin : p.ensure_login lr = .ok p') :
    (400 ≤ ir.status →
      LogiCam.async_fetch_accessory_info p cam lr ir =
        .ok (p', { cam with last_status := some ir.status }) ∧
      ({ cam with last_status := some ir.status } : LogiCam).spec = cam.spec ∧
      ({ cam with last_status := some ir.status } : LogiCam).name = cam.name) ∧
    (∀ j, ir.status < 400 → ir.body = some j →
      LogiCam.async_fetch_accessory_info p cam lr ir =
        .ok (p', { cam with spec := j, last_status := some ir.status })) := by
  constructor
  · intro h400
    refine ⟨?_, rfl, rfl⟩
    simp only [LogiCam.async_fetch_accessory_info]
    rw [hlogin, except_bind_ok, if_neg (by omega)]
    rfl
  · intro j hlt hbody
    simp only [LogiCam.async_fetch_accessory_info]
    rw [hlogin, except_bind_ok, if_pos hlt, hbody]
    rfl

theorem C5_witness :
    (LogiPlatform.mk "e" "pw" (CookieJar.mk [(serviceUrl, "prod_session")])
        200).ensure_login (LoginResponse.mk 200 []) =
      .ok (LogiPlatform.mk "e" "pw"
        (CookieJar.mk [(serviceUrl, "prod_session")]) 200) ∧
    ((400 ≤ (HttpResponse.mk 404 none).status →
      LogiCam.async_fetch_accessory_info
          (LogiPlatform.mk "e" "pw"
            (CookieJar.mk [(serviceUrl, "prod_session")]) 200)
          (LogiCam.init (Json.obj [("name", Json.str "porch")]))
          (LoginResponse.mk 200 []) (HttpResponse.mk 404 none) =
        .ok (LogiPlatform.mk "e" "pw"
            (CookieJar.mk [(serviceUrl, "prod_session")]) 200,
          { LogiCam.init (Json.obj [("name", Json.str "porch")]) with
            last_status := some (HttpResponse.mk 404 none).status }) ∧
      ({ LogiCam.init (Json.obj [("name", Json.str "porch")]) with
          last_status := some (HttpResponse.mk 404 none).status } : LogiCam).spec =
        (LogiCam.init (Json.obj [("name", Json.str "porch")])).spec ∧
      ({ LogiCam.init (Json.obj [("name", Json.str "porch")]) with
          last_status := some (HttpResponse.mk 404 none).status } : LogiCam).name =
        (LogiCam.init (Json.obj [("name", Json.str "porch")])).name) ∧
    (∀ j, (HttpResponse.mk 404 none).status < 400 →
      (HttpResponse.mk 404 none).body = some j →
      LogiCam.async_fetch_accessory_info
          (LogiPlatform.mk "e" "pw"
            (CookieJar.mk [(serviceUrl, "prod_session")]) 200)
          (LogiCam.init (Json.obj [("name", Json.str "porch")]))
          (LoginResponse.mk 200 []) (HttpResponse.mk 404 none) =
        .ok (LogiPlatform.mk "e" "pw"
            (CookieJar.mk [(serviceUrl, "prod_session")]) 200,
          { LogiCam.init (Json.obj [("name", Json.str "porch")]) with
            spec := j,
            last_status := some (HttpResponse.mk 404 none).status }))) :=
  ⟨rfl, C5_fetch_metadata_soft_fail
    (LogiPlatform.mk "e" "pw" (CookieJar.mk [(serviceUrl, "prod_session")]) 200)
    (LogiPlatform.mk "e" "pw" (CookieJar.mk [(serviceUrl, "prod_session")]) 200)
    (LogiCam.init (Json.obj [("name", Json.str "porch")]))
    (LoginResponse.mk 200 []) (HttpResponse.mk 404 none) rfl⟩

/-- Claim C7: `async_fetch_activities` POSTs exactly the fixed filter payload
to the accessory's activities endpoint; it fails with a decode-class error —
never an empty sequence — whenever the response body is not decodable JSON or
lacks the `activities` field, and returns that field otherwise.  The response
the call consumes is the one the network delivers for `activities_payload`. -/
theorem C7_fetch_activities_payload_and_errors (p p' : LogiPlatform)
    (cam : LogiCam) (lr : LoginResponse) (post : Json → HttpResponse)
    (hlogin : p.ensure_login lr = .ok p') :
    activities_payload =
      Json.obj [("extraFields", Json.arr [Json.str "activitySet"]),
                ("operator", Json.str "<="),
                ("limit", Json.num 80),
                ("scanDirectionNewer", Json.bool true),
                ("filter", Json.str "relevanceLevel = 0 OR relevanceLevel >= 1")] ∧
    (∀ aid, cam.accessory_id = some aid →
      cam.activities_url =
        some ("https://video.logi.com/api/accessories/" ++ aid.pyStr ++
          "/activities")) ∧
    ((post activities_payload).body = none →
      LogiCam.async_fetch_activities p cam lr post = .error .decodeError) ∧
    (∀ j, (post activities_payload).body = some j →
      j.lookup "activities" = none →
      LogiCam.async_fetch_activities p cam lr post = .error .decodeError) ∧
    (∀ j acts, (post activities_payload).body = some j →
      j.lookup "activities" = some acts →
      LogiCam.async_fetch_activities p cam lr post =
        .ok (p', { cam with last_status := some (post activities_payload).status },
          acts)) := by
  refine ⟨rfl, ?_, ?_, ?_, ?_⟩
  · intro aid ha
    simp [LogiCam.activities_url, ha]
  · intro hnone
    simp only [LogiCam.async_fetch_activities]
    rw [hlogin, except_bind_ok, hnone]
    rfl
  · intro j hbody hlook
    simp only [LogiCam.async_fetch_activities]
    rw [hlogin, except_bind_ok, hbody]
    simp only [hlook]
    rfl
  · intro j acts hbody hlook
    simp only [LogiCam.async_fetch_activities]
    rw [hlogin, except_bind_ok, hbody]
    simp only [hlook]
    rfl

theorem C7_witness :
    (LogiPlatform.mk "e" "pw" (CookieJar.mk [(serviceUrl, "prod_session")])
        200).ensure_login (LoginResponse.mk 200 []) =
      .ok (LogiPlatform.mk "e" "pw"
        (CookieJar.mk [(serviceUrl, "prod_session")]) 200) ∧
    (activities_payload =
      Json.obj [("extraFields", Json.arr [Json.str "activitySet"]),
                ("operator", Json.str "<="),
                ("limit", Json.num 80),
                ("scanDirectionNewer", Json.bool true),
                ("filter", Json.str "relevanceLevel = 0 OR relevanceLevel >= 1")] ∧
    (∀ aid, (LogiCam.init (Json.obj [("accessoryId", Json.str "A")])).accessory_id =
        some aid →
      (LogiCam.init (Json.obj [("accessoryId", Json.str "A")])).activities_url =
        some ("https://video.logi.com/api/accessories/" ++ aid.pyStr ++
          "/activities")) ∧
    (((fun _ => HttpResponse.mk 200 (some (Json.obj []))) activities_payload).body =
        none →
      LogiCam.async_fetch_activities
          (LogiPlatform.mk "e" "pw"
            (CookieJar.mk [(serviceUrl, "prod_session")]) 200)
          (LogiCam.init (Json.obj [("accessoryId", Json.str "A")]))
          (LoginResponse.mk 200 [])
          (fun _ => HttpResponse.mk 200 (some (Json.obj []))) =
        .error .decodeError) ∧
    (∀ j, ((fun _ => HttpResponse.mk 200 (some (Json.obj []))) activities_payload).body =
        some j →
      j.lookup "activities" = none →
      LogiCam.async_fetch_activities
          (LogiPlatform.mk "e" "pw"
            (CookieJar.mk [(serviceUrl, "prod_session")]) 200)
          (LogiCam.init (Json.obj [("accessoryId", Json.str "A")]))
          (LoginResponse.mk 200 [])
          (fun _ => HttpResponse.mk 200 (some (Json.obj []))) =
        .error .decodeError) ∧
    (∀ j acts, ((fun _ => HttpResponse.mk 200 (some (Json.obj []))) activities_payload).body =
        some j →
      j.lookup "activities" = some acts →
      LogiCam.async_fetch_activities
          (LogiPlatform.mk "e" "pw"
            (CookieJar.mk [(serviceUrl, "prod_session")]) 200)
          (LogiCam.init (Json.obj [("accessoryId", Json.str "A")]))
          (LoginResponse.mk 200 [])
          (fun _ => HttpResponse.mk 200 (some (Json.obj []))) =
        .ok (LogiPlatform.mk "e" "pw"
            (CookieJar.mk [(serviceUrl, "prod_session")]) 200,
          { LogiCam.init (Json.obj [("accessoryId", Json.str "A")]) with
            last_status := some ((fun _ => HttpResponse.mk 200
              (some (Json.obj []))) activities_payload).status },
          acts))) :=
  ⟨rfl, C7_fetch_activities_payload_and_errors
    (LogiPlatform.mk "e" "pw" (CookieJar.mk [(serviceUrl, "prod_session")]) 200)
    (LogiPlatform.mk "e" "pw" (CookieJar.mk [(serviceUrl, "prod_session")]) 200)
    (LogiCam.init (Json.obj [("accessoryId", Json.str "A")]))
    (LoginResponse.mk 200 [])
    (fun _ => HttpResponse.mk 200 (some (Json.obj []))) rfl⟩

/-- Claim C8: the `anticache` query parameter of the snapshot image URL is
the wall clock truncated to whole milliseconds (`t_us / 1000` for a clock in
microseconds), and for two calls at clock times `t1 ≤ t2` the second value is
greater than or equal to the first (equal whenever the two times fall in the
same millisecond, never smaller). -/
theorem C8_anticache_truncated_monotone (cam : LogiCam) (nid aid : Json)
    (t1 t2 : Nat) (hn : cam.node_id = some nid) (ha : cam.accessory_id = some aid)
    (h12 : t1 ≤ t2) :
    cam.still_image_url t1 =
      some ("https://" ++ nid.pyStr ++ "/api/accessories/" ++ aid.pyStr ++
        "/image?anticache=" ++ toString (js_timestamp t1)) ∧
    js_timestamp t1 = t1 / 1000 ∧
    js_timestamp t1 ≤ js_timestamp t2 ∧
    (t1 / 1000 = t2 / 1000 → js_timestamp t1 = js_timestamp t2) := by
  refine ⟨?_, rfl, Nat.div_le_div_right h12, fun h => h⟩
  simp [LogiCam.still_image_url, hn, ha]

theorem C8_witness :
    (LogiCam.init (Json.obj [("accessoryId", Json.str "A"),
        ("nodeId", Json.str "N")])).node_id = some (Json.str "N") ∧
    (LogiCam.init (Json.obj [("accessoryId", Json.str "A"),
        ("nodeId", Json.str "N")])).accessory_id = some (Json.str "A") ∧
    (1500 : Nat) ≤ 2600 ∧
    ((LogiCam.init (Json.obj [("accessoryId", Json.str "A"),
        ("nodeId", Json.str "N")])).still_image_url 1500 =
      some ("https://" ++ (Json.str "N").pyStr ++ "/api/accessories/" ++
        (Json.str "A").pyStr ++ "/image?anticache=" ++
        toString (js_timestamp 1500)) ∧
    js_timestamp 1500 = 1500 / 1000 ∧
    js_timestamp 1500 ≤ js_timestamp 2600 ∧
    (1500 / 1000 = 2600 / 1000 → js_timestamp 1500 = js_timestamp 2600)) :=
  ⟨rfl, rfl, by decide, C8_anticache_truncated_monotone
    (LogiCam.init (Json.obj [("accessoryId", Json.str "A"),
      ("nodeId", Json.str "N")]))
    (Json.str "N") (Json.str "A") 1500 2600 rfl rfl (by decide)⟩

end LogiCircle
